import Mathlib

/-!
Shallow embedding of the Convex image-generation backend
(`convex/images.ts` and `convex/schema.ts` of convex-imagegen-studio).

Pure helpers (`normalizeProvider`, `roundToMultiple`,
`resolveHuggingFaceDimensions`) are translated directly.  The stateful
Convex functions (`create`, `update`, `list`, `generate`) are modelled by
explicit state passing over a list of records; the identifier returned by
an insert is the position of the record in that list.  JavaScript numbers
that the code treats arithmetically (`numImages`, the dimension math) are
modelled as rationals, which is exact on all values involved.  External
effects (environment variables, the Hugging Face per-image pipeline, the
fal call, the clock) are supplied by an explicit environment `Env`; a
thrown JavaScript value is modelled by `JsError`, whose `message` is
`none` when the thrown value is not an `Error` instance.
-/

namespace Imagegen

def FAL_MODEL_NAME : String := "fal-ai/nano-banana-pro"

def HUGGINGFACE_MODEL_NAME : String := "ByteDance/SDXL-Lightning"

def HUGGINGFACE_BASE_SIZE : ℚ := 1024

/-- The table `ASPECT_RATIO_MAP`; a lookup miss models an out-of-table key. -/
def ASPECT_RATIO_MAP : String → Option (ℚ × ℚ)
  | "1:1" => some (1, 1)
  | "4:3" => some (4, 3)
  | "3:2" => some (3, 2)
  | "16:9" => some (16, 9)
  | "9:16" => some (9, 16)
  | _ => none

/-- JavaScript `Math.round`: round half away from zero upward, i.e. floor of x + 1/2. -/
def jsRound (x : ℚ) : ℤ := ⌊x + 1 / 2⌋

/-- Source: `(value, multiple) => Math.max(multiple, Math.round(value / multiple) * multiple)`. -/
def roundToMultiple (value : ℚ) (multiple : ℚ) : ℚ :=
  max multiple ((jsRound (value / multiple) : ℚ) * multiple)

/-- Source: `provider === "huggingface" ? "huggingface" : "fal"`, with `none`
modelling an absent (`undefined`) argument. -/
def normalizeProvider (provider : Option String) : String :=
  if provider = some "huggingface" then "huggingface" else "fal"

structure Dims where
  width : ℚ
  height : ℚ
deriving DecidableEq

/-- Source: look the ratio pair up (falling back to `[1, 1]`), scale by
`1024 / max(ratioWidth, ratioHeight)`, round both sides to a multiple of 64. -/
def resolveHuggingFaceDimensions (aspectRatio : String) : Dims :=
  let p := (ASPECT_RATIO_MAP aspectRatio).getD (1, 1)
  let scale := HUGGINGFACE_BASE_SIZE / max p.1 p.2
  { width := roundToMultiple (p.1 * scale) 64
    height := roundToMultiple (p.2 * scale) 64 }

/-- The dimension rule as the spec words it: derive the width:height integer
pair of the ratio (supported ratios 1:1, 4:3, 3:2, 16:9, 9:16; anything else
falls back to 1:1), scale the larger component to the base size 1024, and
round both dimensions to the nearest multiple of 64 with a floor of 64.
`round` is the Mathlib round-half-up function. -/
def specAspectPair (aspectRatio : String) : ℚ × ℚ :=
  match aspectRatio with
  | "1:1" => (1, 1)
  | "4:3" => (4, 3)
  | "3:2" => (3, 2)
  | "16:9" => (16, 9)
  | "9:16" => (9, 16)
  | _ => (1, 1)

/-- Spec-side formulation of the dimension resolution, to be compared with
`resolveHuggingFaceDimensions` (which is translated from the code). -/
def specHuggingFaceDimensions (aspectRatio : String) : Dims :=
  let p := specAspectPair aspectRatio
  let s := 1024 / max p.1 p.2
  { width := max 64 ((round (p.1 * s / 64) : ℚ) * 64)
    height := max 64 ((round (p.2 * s / 64) : ℚ) * 64) }

/-- One row of the `images` table (`convex/schema.ts`). -/
structure ImageRecord where
  prompt : String
  model : String
  provider : String
  aspectRatio : String
  resolution : String
  outputFormat : String
  numImages : ℚ
  status : String
  createdAt : ℕ
  updatedAt : ℕ
  imageUrls : Option (List String) := none
  requestId : Option String := none
  error : Option String := none
deriving DecidableEq

/-- The `create` mutation: insert the record, return the new id.  Ids are
modelled as positions in the list of records. -/
def create (db : List ImageRecord) (rec : ImageRecord) : List ImageRecord × ℕ :=
  (db ++ [rec], db.length)

/-- Arguments of the `update` mutation besides the id.  A `none` in an
optional field models the argument being absent, in which case the patch
leaves that field of the record unchanged. -/
structure UpdateArgs where
  status : Option String := none
  imageUrls : Option (List String) := none
  requestId : Option String := none
  error : Option String := none
  updatedAt : ℕ
deriving DecidableEq

/-- Effect of `db.patch` on one record: provided fields overwrite, absent
fields are untouched; `updatedAt` is always provided by the caller. -/
def applyPatch (r : ImageRecord) (f : UpdateArgs) : ImageRecord :=
  { r with
    status := f.status.getD r.status
    imageUrls := match f.imageUrls with | some v => some v | none => r.imageUrls
    requestId := match f.requestId with | some v => some v | none => r.requestId
    error := match f.error with | some v => some v | none => r.error
    updatedAt := f.updatedAt }

/-- The `update` mutation: patch the record at position `id`. -/
def update : List ImageRecord → ℕ → UpdateArgs → List ImageRecord
  | [], _, _ => []
  | r :: rest, 0, f => applyPatch r f :: rest
  | r :: rest, n + 1, f => r :: update rest n f

/-- Descending `createdAt` order used by the `list` query
(`withIndex("by_created_at").order("desc")`). -/
def newerFirst (a b : ImageRecord) : Prop := b.createdAt ≤ a.createdAt

instance : DecidableRel newerFirst := fun a b => Nat.decLe b.createdAt a.createdAt

instance : IsTotal ImageRecord newerFirst := ⟨fun a b => Nat.le_total b.createdAt a.createdAt⟩

instance : IsTrans ImageRecord newerFirst := ⟨fun _ _ _ h1 h2 => Nat.le_trans h2 h1⟩

/-- The `list` query: records in descending `createdAt` order, truncated to
`limit ?? 24`.  It reads the table and performs no write, which the type
(a pure function of the table) makes explicit. -/
def list (limit : Option ℕ) (db : List ImageRecord) : List ImageRecord :=
  (List.insertionSort newerFirst db).take (limit.getD 24)

/-- A thrown JavaScript value.  `message = some m` models an `Error` whose
`.message` is `m`; `message = none` models a thrown non-`Error` value. -/
structure JsError where
  message : Option String
deriving DecidableEq

/-- The catch-block computation `error instanceof Error ? error.message :
"Unexpected image generation error."`. -/
def errorText (e : JsError) : String :=
  e.message.getD "Unexpected image generation error."

/-- JavaScript falsiness of an optional string credential: `undefined` and
the empty string are falsy (`if (!token) ...`). -/
def falsyCred : Option String → Bool
  | none => true
  | some s => s = ""

/-- Result of `fal.subscribe`: `images` models the chain
`result.data?.images` (absent `data` or absent `images` both collapse to
`none`), each entry being the image url, itself possibly absent or empty.
`requestId` models `result.requestId ?? undefined`. -/
structure FalResult where
  images : Option (List (Option String))
  requestId : Option String
deriving DecidableEq

/-- The extraction `images.map((image) => image.url).filter(Boolean)`:
keep only entries that are present and non-empty. -/
def truthyFilter (urls : List (Option String)) : List String :=
  urls.filterMap fun u =>
    match u with
    | some s => if s = "" then none else some s
    | none => none

/-- Input of the single batched fal call, recorded for inspection. -/
structure FalInput where
  prompt : String
  aspect_ratio : String
  resolution : String
  output_format : String
  num_images : ℚ
deriving DecidableEq

/-- The environment a `generate` run interacts with: the two credentials,
the two `Date.now()` readings (one at entry, one at the terminal patch),
the outcome of each per-image Hugging Face pipeline step (the
`textToImage` / `storage.store` / `storage.getUrl` sequence: a thrown
error, or the resulting url where `none` models a `null` url), and the
outcome of the fal call. -/
structure Env where
  hfToken : Option String
  falKey : Option String
  t0 : ℕ
  t1 : ℕ
  hfStep : ℕ → Except JsError (Option String)
  falOutcome : Except JsError FalResult

/-- Number of iterations of `for (let index = 0; index < numImages; index += 1)`
when `numImages` is the (possibly fractional) bound. -/
def loopCount (q : ℚ) : ℕ := (Int.toNat ⌈q⌉)

/-- The Hugging Face loop starting at index `i` with `n` iterations left:
a step that throws aborts the loop with that error; a step yielding no url
is skipped; a step yielding a url appends it, preserving call order. -/
def hfLoop (step : ℕ → Except JsError (Option String)) : ℕ → ℕ → Except JsError (List String)
  | _, 0 => Except.ok []
  | i, n + 1 =>
    match step i with
    | Except.error e => Except.error e
    | Except.ok u =>
      match hfLoop step (i + 1) n with
      | Except.error e => Except.error e
      | Except.ok urls =>
        Except.ok (match u with | some s => s :: urls | none => urls)

/-- The clamp `Math.min(4, Math.max(1, x))`. -/
def clampNumImages (x : ℚ) : ℚ := min 4 (max 1 x)

/-- Arguments of the `generate` action.  `none` models an absent optional
argument. -/
structure GenArgs where
  prompt : String
  aspectRatio : String
  resolution : String
  outputFormat : String
  numImages : Option ℚ := none
  provider : Option String := none
deriving DecidableEq

/-- The Convex argument validators of `generate`: enum membership for the
three literal unions and, when present, for the provider. -/
def aspectRatioValidatorAccepts (s : String) : Bool :=
  s = "1:1" || s = "4:3" || s = "3:2" || s = "16:9" || s = "9:16"

def resolutionValidatorAccepts (s : String) : Bool :=
  s = "1K" || s = "2K" || s = "4K"

def outputFormatValidatorAccepts (s : String) : Bool :=
  s = "png" || s = "jpeg" || s = "webp"

def providerValidatorAccepts (s : String) : Bool :=
  s = "fal" || s = "huggingface"

/-- Whether a client call to `generate` passes Convex argument validation;
a call that does not pass is rejected before the handler runs. -/
def generateArgsValid (a : GenArgs) : Bool :=
  aspectRatioValidatorAccepts a.aspectRatio &&
  resolutionValidatorAccepts a.resolution &&
  outputFormatValidatorAccepts a.outputFormat &&
  (match a.provider with
   | none => true
   | some s => providerValidatorAccepts s)

/-- Observable outcome of a `generate` run: the returned value, or the
re-thrown error. -/
inductive GenResult where
  | ok (id : ℕ) (imageUrls : List String) (requestId : Option String)
  | err (e : JsError)
deriving DecidableEq

/-- Everything a `generate` run leaves behind: the table, the outcome, and
the input of the fal call when one was issued. -/
structure GenOut where
  db : List ImageRecord
  result : GenResult
  falCall : Option FalInput

/-- The `generate` action handler.  It mirrors the source line by line:
normalize provider and image count, insert the `queued` record, then run
the provider branch inside the try block; any thrown error is caught,
patched into the record as `failed`, and re-thrown. -/
def generate (args : GenArgs) (env : Env) (db : List ImageRecord) : GenOut :=
  let requestedAt := env.t0
  let provider := normalizeProvider args.provider
  let numImages := clampNumImages (args.numImages.getD 1)
  let modelName := if provider = "huggingface" then HUGGINGFACE_MODEL_NAME else FAL_MODEL_NAME
  let resolvedResolution := if provider = "huggingface" then "1K" else args.resolution
  let resolvedOutputFormat := if provider = "huggingface" then "png" else args.outputFormat
  let created := create db
    { prompt := args.prompt
      model := modelName
      provider := provider
      aspectRatio := args.aspectRatio
      resolution := resolvedResolution
      outputFormat := resolvedOutputFormat
      numImages := numImages
      status := "queued"
      createdAt := requestedAt
      updatedAt := requestedAt }
  let db1 := created.1
  let imageId := created.2
  if provider = "huggingface" then
    if falsyCred env.hfToken then
      let e : JsError := { message := some "Missing HF_TOKEN environment variable." }
      { db := update db1 imageId { status := some "failed", error := some (errorText e), updatedAt := env.t1 }
        result := GenResult.err e
        falCall := none }
    else
      match hfLoop env.hfStep 0 (loopCount numImages) with
      | Except.error e =>
        { db := update db1 imageId { status := some "failed", error := some (errorText e), updatedAt := env.t1 }
          result := GenResult.err e
          falCall := none }
      | Except.ok imageUrls =>
        if imageUrls = [] then
          let e : JsError := { message := some "Hugging Face returned no images." }
          { db := update db1 imageId { status := some "failed", error := some (errorText e), updatedAt := env.t1 }
            result := GenResult.err e
            falCall := none }
        else
          { db := update db1 imageId { status := some "complete", imageUrls := some imageUrls, updatedAt := env.t1 }
            result := GenResult.ok imageId imageUrls none
            falCall := none }
  else
    if falsyCred env.falKey then
      let e : JsError := { message := some "Missing FAL_KEY environment variable." }
      { db := update db1 imageId { status := some "failed", error := some (errorText e), updatedAt := env.t1 }
        result := GenResult.err e
        falCall := none }
    else
      let callInput : FalInput :=
        { prompt := args.prompt
          aspect_ratio := args.aspectRatio
          resolution := resolvedResolution
          output_format := resolvedOutputFormat
          num_images := numImages }
      match env.falOutcome with
      | Except.error e =>
        { db := update db1 imageId { status := some "failed", error := some (errorText e), updatedAt := env.t1 }
          result := GenResult.err e
          falCall := some callInput }
      | Except.ok res =>
        let imageUrls := truthyFilter (res.images.getD [])
        { db := update db1 imageId
            { status := some "complete", imageUrls := some imageUrls, requestId := res.requestId, updatedAt := env.t1 }
          result := GenResult.ok imageId imageUrls res.requestId
          falCall := some callInput }

/-! ### Helper lemmas -/

theorem update_append_last (db : List ImageRecord) (r : ImageRecord) (f : UpdateArgs) :
    update (db ++ [r]) db.length f = db ++ [applyPatch r f] := by
  induction db with
  | nil => rfl
  | cons a t ih => simpa [update] using ih

theorem roundToMultiple_eq_round (v : ℚ) :
    roundToMultiple v 64 = max 64 ((round (v / 64) : ℚ) * 64) := by
  rw [roundToMultiple, jsRound, round_eq]

theorem specAspectPair_eq (r : String) :
    specAspectPair r = (ASPECT_RATIO_MAP r).getD (1, 1) := by
  unfold specAspectPair ASPECT_RATIO_MAP
  split <;> rfl

theorem resolveHuggingFaceDimensions_eq_spec (r : String) :
    resolveHuggingFaceDimensions r = specHuggingFaceDimensions r := by
  rw [resolveHuggingFaceDimensions, specHuggingFaceDimensions, specAspectPair_eq,
    roundToMultiple_eq_round, roundToMultiple_eq_round]
  rfl

/-- The record inserted by `generate` before the provider branch runs. -/
def queuedRecord (args : GenArgs) (env : Env) : ImageRecord :=
  { prompt := args.prompt
    model := if normalizeProvider args.provider = "huggingface"
      then HUGGINGFACE_MODEL_NAME else FAL_MODEL_NAME
    provider := normalizeProvider args.provider
    aspectRatio := args.aspectRatio
    resolution := if normalizeProvider args.provider = "huggingface" then "1K" else args.resolution
    outputFormat := if normalizeProvider args.provider = "huggingface"
      then "png" else args.outputFormat
    numImages := clampNumImages ((args.numImages).getD 1)
    status := "queued"
    createdAt := env.t0
    updatedAt := env.t0 }

/-- Branch equation: huggingface provider, missing or empty token. -/
theorem generate_hf_noToken (args : GenArgs) (env : Env) (db : List ImageRecord)
    (hp : normalizeProvider args.provider = "huggingface")
    (htok : falsyCred env.hfToken = true) :
    generate args env db =
      { db := db ++ [{ queuedRecord args env with
          status := "failed"
          error := some "Missing HF_TOKEN environment variable."
          updatedAt := env.t1 }]
        result := GenResult.err { message := some "Missing HF_TOKEN environment variable." }
        falCall := none } := by
  simp [generate, create, hp, htok, update_append_last, applyPatch, errorText,
    queuedRecord]

/-- Branch equation: huggingface provider, a per-image step threw. -/
theorem generate_hf_stepError (args : GenArgs) (env : Env) (db : List ImageRecord)
    (e : JsError)
    (hp : normalizeProvider args.provider = "huggingface")
    (htok : falsyCred env.hfToken = false)
    (hl : hfLoop env.hfStep 0 (loopCount (clampNumImages ((args.numImages).getD 1))) =
      Except.error e) :
    generate args env db =
      { db := db ++ [{ queuedRecord args env with
          status := "failed"
          error := some (errorText e)
          updatedAt := env.t1 }]
        result := GenResult.err e
        falCall := none } := by
  simp [generate, create, hp, htok, hl, update_append_last, applyPatch, queuedRecord]

/-- Branch equation: huggingface provider, loop finished with no url. -/
theorem generate_hf_noImages (args : GenArgs) (env : Env) (db : List ImageRecord)
    (hp : normalizeProvider args.provider = "huggingface")
    (htok : falsyCred env.hfToken = false)
    (hl : hfLoop env.hfStep 0 (loopCount (clampNumImages ((args.numImages).getD 1))) =
      Except.ok []) :
    generate args env db =
      { db := db ++ [{ queuedRecord args env with
          status := "failed"
          error := some "Hugging Face returned no images."
          updatedAt := env.t1 }]
        result := GenResult.err { message := some "Hugging Face returned no images." }
        falCall := none } := by
  simp [generate, create, hp, htok, hl, update_append_last, applyPatch, errorText,
    queuedRecord]

/-- Branch equation: huggingface provider, loop finished with urls. -/
theorem generate_hf_done (args : GenArgs) (env : Env) (db : List ImageRecord)
    (urls : List String)
    (hp : normalizeProvider args.provider = "huggingface")
    (htok : falsyCred env.hfToken = false)
    (hl : hfLoop env.hfStep 0 (loopCount (clampNumImages ((args.numImages).getD 1))) =
      Except.ok urls)
    (hurls : urls ≠ []) :
    generate args env db =
      { db := db ++ [{ queuedRecord args env with
          status := "complete"
          imageUrls := some urls
          updatedAt := env.t1 }]
        result := GenResult.ok db.length urls none
        falCall := none } := by
  simp [generate, create, hp, htok, hl, hurls, update_append_last, applyPatch, queuedRecord]

/-- Branch equation: fal provider, missing or empty key. -/
theorem generate_fal_noKey (args : GenArgs) (env : Env) (db : List ImageRecord)
    (hp : ¬ normalizeProvider args.provider = "huggingface")
    (hkey : falsyCred env.falKey = true) :
    generate args env db =
      { db := db ++ [{ queuedRecord args env with
          status := "failed"
          error := some "Missing FAL_KEY environment variable."
          updatedAt := env.t1 }]
        result := GenResult.err { message := some "Missing FAL_KEY environment variable." }
        falCall := none } := by
  simp [generate, create, hp, hkey, update_append_last, applyPatch, errorText,
    queuedRecord]

/-- Branch equation: fal provider, the fal call threw. -/
theorem generate_fal_error (args : GenArgs) (env : Env) (db : List ImageRecord)
    (e : JsError)
    (hp : ¬ normalizeProvider args.provider = "huggingface")
    (hkey : falsyCred env.falKey = false)
    (hf : env.falOutcome = Except.error e) :
    generate args env db =
      { db := db ++ [{ queuedRecord args env with
          status := "failed"
          error := some (errorText e)
          updatedAt := env.t1 }]
        result := GenResult.err e
        falCall := some
          { prompt := args.prompt
            aspect_ratio := args.aspectRatio
            resolution := args.resolution
            output_format := args.outputFormat
            num_images := clampNumImages ((args.numImages).getD 1) } } := by
  simp [generate, create, hp, hkey, hf, update_append_last, applyPatch, queuedRecord]

/-- Branch equation: fal provider, the fal call returned. -/
theorem generate_fal_done (args : GenArgs) (env : Env) (db : List ImageRecord)
    (res : FalResult)
    (hp : ¬ normalizeProvider args.provider = "huggingface")
    (hkey : falsyCred env.falKey = false)
    (hf : env.falOutcome = Except.ok res) :
    generate args env db =
      { db := db ++ [{ queuedRecord args env with
          status := "complete"
          imageUrls := some (truthyFilter (res.images.getD []))
          requestId := res.requestId
          updatedAt := env.t1 }]
        result := GenResult.ok db.length (truthyFilter (res.images.getD [])) res.requestId
        falCall := some
          { prompt := args.prompt
            aspect_ratio := args.aspectRatio
            resolution := args.resolution
            output_format := args.outputFormat
            num_images := clampNumImages ((args.numImages).getD 1) } } := by
  simp [generate, create, hp, hkey, hf, update_append_last, applyPatch, queuedRecord]
  cases hrid : res.requestId <;> simp [hrid]

/-- Master characterization of one `generate` run: exactly one record is
appended; its immutable fields are the normalized inputs; its timestamps
are the entry and patch clock readings; and it ends either `failed`
carrying the message of the re-thrown error and no urls, or `complete`
carrying exactly the returned urls (which on the huggingface branch are
non-empty and come with no request id). -/
theorem generate_master (args : GenArgs) (env : Env) (db : List ImageRecord) :
    ∃ rec : ImageRecord,
      (generate args env db).db = db ++ [rec] ∧
      rec.prompt = args.prompt ∧
      rec.model = (if normalizeProvider args.provider = "huggingface"
        then HUGGINGFACE_MODEL_NAME else FAL_MODEL_NAME) ∧
      rec.provider = normalizeProvider args.provider ∧
      rec.aspectRatio = args.aspectRatio ∧
      rec.resolution = (if normalizeProvider args.provider = "huggingface"
        then "1K" else args.resolution) ∧
      rec.outputFormat = (if normalizeProvider args.provider = "huggingface"
        then "png" else args.outputFormat) ∧
      rec.numImages = clampNumImages ((args.numImages).getD 1) ∧
      rec.createdAt = env.t0 ∧
      rec.updatedAt = env.t1 ∧
      ((∃ e, (generate args env db).result = GenResult.err e ∧
          rec.status = "failed" ∧ rec.error = some (errorText e) ∧
          rec.imageUrls = none ∧ rec.requestId = none) ∨
       (∃ urls rid, (generate args env db).result = GenResult.ok db.length urls rid ∧
          rec.status = "complete" ∧ rec.imageUrls = some urls ∧
          rec.error = none ∧ rec.requestId = rid ∧
          (normalizeProvider args.provider = "huggingface" → urls ≠ [] ∧ rid = none))) := by
  by_cases hp : normalizeProvider args.provider = "huggingface"
  · cases htok : falsyCred env.hfToken with
    | true =>
      rw [generate_hf_noToken args env db hp htok]
      exact ⟨_, rfl, rfl, rfl, rfl, rfl, rfl, rfl, rfl, rfl, rfl,
        Or.inl ⟨_, rfl, rfl, rfl, rfl, rfl⟩⟩
    | false =>
      cases hl : hfLoop env.hfStep 0 (loopCount (clampNumImages ((args.numImages).getD 1))) with
      | error e =>
        rw [generate_hf_stepError args env db e hp htok hl]
        exact ⟨_, rfl, rfl, rfl, rfl, rfl, rfl, rfl, rfl, rfl, rfl,
          Or.inl ⟨e, rfl, rfl, rfl, rfl, rfl⟩⟩
      | ok urls =>
        by_cases hurls : urls = []
        · subst hurls
          rw [generate_hf_noImages args env db hp htok hl]
          exact ⟨_, rfl, rfl, rfl, rfl, rfl, rfl, rfl, rfl, rfl, rfl,
            Or.inl ⟨_, rfl, rfl, rfl, rfl, rfl⟩⟩
        · rw [generate_hf_done args env db urls hp htok hl hurls]
          exact ⟨_, rfl, rfl, rfl, rfl, rfl, rfl, rfl, rfl, rfl, rfl,
            Or.inr ⟨urls, none, rfl, rfl, rfl, rfl, rfl, fun _ => ⟨hurls, rfl⟩⟩⟩
  · cases hkey : falsyCred env.falKey with
    | true =>
      rw [generate_fal_noKey args env db hp hkey]
      exact ⟨_, rfl, rfl, rfl, rfl, rfl, rfl, rfl, rfl, rfl, rfl,
        Or.inl ⟨_, rfl, rfl, rfl, rfl, rfl⟩⟩
    | false =>
      cases hf : env.falOutcome with
      | error e =>
        rw [generate_fal_error args env db e hp hkey hf]
        exact ⟨_, rfl, rfl, rfl, rfl, rfl, rfl, rfl, rfl, rfl, rfl,
          Or.inl ⟨e, rfl, rfl, rfl, rfl, rfl⟩⟩
      | ok res =>
        rw [generate_fal_done args env db res hp hkey hf]
        exact ⟨_, rfl, rfl, rfl, rfl, rfl, rfl, rfl, rfl, rfl, rfl,
          Or.inr ⟨truthyFilter (res.images.getD []), res.requestId, rfl, rfl, rfl, rfl, rfl,
            fun h => absurd h hp⟩⟩

/-- When no per-image step throws, the loop returns exactly the present
urls in call order. -/
theorem hfLoop_all_ok (step : ℕ → Except JsError (Option String)) (us : ℕ → Option String) :
    ∀ (n i : ℕ), (∀ j, j < n → step (i + j) = Except.ok (us (i + j))) →
      hfLoop step i n = Except.ok (((List.range n).map (fun j => us (i + j))).filterMap id) := by
  intro n
  induction n with
  | zero => intro i _; rfl
  | succ n ih =>
    intro i h
    have h0 : step i = Except.ok (us i) := by
      have hh := h 0 (Nat.succ_pos n)
      rwa [Nat.add_zero] at hh
    have hrest := ih (i + 1) (fun j hj => by
      have hh := h (j + 1) (Nat.succ_lt_succ hj)
      have hidx : i + (j + 1) = i + 1 + j := by omega
      rwa [hidx] at hh)
    have hlist : ((List.range (n + 1)).map (fun j => us (i + j))).filterMap id =
        (match us i with
         | some s => s :: ((List.range n).map (fun j => us (i + 1 + j))).filterMap id
         | none => ((List.range n).map (fun j => us (i + 1 + j))).filterMap id) := by
      rw [List.range_succ_eq_map]
      simp only [List.map_cons, Nat.add_zero, List.map_map, List.filterMap_cons, id]
      have hfun : (fun j => us (i + j)) ∘ Nat.succ = fun j => us (i + 1 + j) := by
        funext j
        have hidx : i + Nat.succ j = i + 1 + j := by omega
        simp only [Function.comp_apply]
        rw [hidx]
      rw [hfun]
      cases us i <;> rfl
    simp only [hfLoop, h0, hrest, hlist]

/-- A loop error is the error of one of the per-image steps. -/
theorem hfLoop_error_source (step : ℕ → Except JsError (Option String)) :
    ∀ (n i : ℕ) (e : JsError), hfLoop step i n = Except.error e →
      ∃ j, step j = Except.error e := by
  intro n
  induction n with
  | zero =>
    intro i e h
    exact absurd h (by simp [hfLoop])
  | succ n ih =>
    intro i e h
    simp only [hfLoop] at h
    cases hs : step i with
    | error e2 =>
      rw [hs] at h
      refine ⟨i, ?_⟩
      rw [hs]
      injection h with h2
      rw [h2]
    | ok u =>
      rw [hs] at h
      cases hr : hfLoop step (i + 1) n with
      | error e3 =>
        rw [hr] at h
        injection h with h2
        exact h2 ▸ ih (i + 1) e3 hr
      | ok urls =>
        rw [hr] at h
        cases h

/-- Every error a `generate` run re-throws is one of the three internal
errors or an error supplied by the environment. -/
theorem generate_err_source (args : GenArgs) (env : Env) (db : List ImageRecord) (e : JsError)
    (h : (generate args env db).result = GenResult.err e) :
    e = { message := some "Missing HF_TOKEN environment variable." } ∨
    e = { message := some "Missing FAL_KEY environment variable." } ∨
    e = { message := some "Hugging Face returned no images." } ∨
    (∃ j, env.hfStep j = Except.error e) ∨
    env.falOutcome = Except.error e := by
  by_cases hp : normalizeProvider args.provider = "huggingface"
  · cases htok : falsyCred env.hfToken with
    | true =>
      rw [generate_hf_noToken args env db hp htok] at h
      injection h with h2
      exact Or.inl h2.symm
    | false =>
      cases hl : hfLoop env.hfStep 0 (loopCount (clampNumImages ((args.numImages).getD 1))) with
      | error e2 =>
        rw [generate_hf_stepError args env db e2 hp htok hl] at h
        injection h with h2
        exact Or.inr (Or.inr (Or.inr (Or.inl (h2 ▸ hfLoop_error_source env.hfStep _ 0 e2 hl))))
      | ok urls =>
        by_cases hurls : urls = []
        · subst hurls
          rw [generate_hf_noImages args env db hp htok hl] at h
          injection h with h2
          exact Or.inr (Or.inr (Or.inl h2.symm))
        · rw [generate_hf_done args env db urls hp htok hl hurls] at h
          cases h
  · cases hkey : falsyCred env.falKey with
    | true =>
      rw [generate_fal_noKey args env db hp hkey] at h
      injection h with h2
      exact Or.inr (Or.inl h2.symm)
    | false =>
      cases hf : env.falOutcome with
      | error e2 =>
        rw [generate_fal_error args env db e2 hp hkey hf] at h
        injection h with h2
        refine Or.inr (Or.inr (Or.inr (Or.inr ?_)))
        rw [← h2]
      | ok res =>
        rw [generate_fal_done args env db res hp hkey hf] at h
        cases h

/-- Pointwise effect of the `update` mutation on the table. -/
theorem update_getElem :
    ∀ (db : List ImageRecord) (id : ℕ) (f : UpdateArgs) (j : ℕ),
      (update db id f)[j]? =
        if j = id then (db[j]?).map (fun r => applyPatch r f) else db[j]?
  | [], id, f, j => by simp [update]
  | r :: rest, 0, f, 0 => by simp [update]
  | r :: rest, 0, f, j + 1 => by simp [update]
  | r :: rest, id + 1, f, 0 => by simp [update]
  | r :: rest, id + 1, f, j + 1 => by
    simp [update, update_getElem rest id f j]

/-! ### Claims -/

/-- C8: the listing query returns at most `n` records, in descending
`createdAt` order, all drawn from the table, and no returned record is
older than any record it leaves out; an absent limit behaves as limit 24.
The query is a pure function of the table, so it performs no write. -/
theorem C8_list_recent (n : ℕ) (db : List ImageRecord) :
    (list (some n) db).length ≤ n ∧
    List.Sorted newerFirst (list (some n) db) ∧
    (∀ a, a ∈ list (some n) db → a ∈ db) ∧
    (∀ a, a ∈ list (some n) db →
      ∀ b, b ∈ (List.insertionSort newerFirst db).drop n → b.createdAt ≤ a.createdAt) ∧
    list none db = list (some 24) db := by
  refine ⟨?_, ?_, ?_, ?_, rfl⟩
  · exact List.length_take_le n (List.insertionSort newerFirst db)
  · exact List.Pairwise.sublist
      (List.take_sublist n (List.insertionSort newerFirst db))
      (List.sorted_insertionSort newerFirst db)
  · intro a ha
    exact (List.perm_insertionSort newerFirst db).subset
      ((List.take_sublist n (List.insertionSort newerFirst db)).subset ha)
  · have hs : List.Pairwise newerFirst
        ((List.insertionSort newerFirst db).take n ++ (List.insertionSort newerFirst db).drop n) := by
      rw [List.take_append_drop]
      exact List.sorted_insertionSort newerFirst db
    intro a ha b hb
    exact (List.pairwise_append.mp hs).2.2 a ha b hb

def dbC8 : List ImageRecord :=
  [{ prompt := "a", model := "m", provider := "fal", aspectRatio := "1:1",
     resolution := "1K", outputFormat := "png", numImages := 1, status := "complete",
     createdAt := 5, updatedAt := 5 },
   { prompt := "b", model := "m", provider := "fal", aspectRatio := "1:1",
     resolution := "1K", outputFormat := "png", numImages := 1, status := "complete",
     createdAt := 9, updatedAt := 9 },
   { prompt := "c", model := "m", provider := "fal", aspectRatio := "1:1",
     resolution := "1K", outputFormat := "png", numImages := 1, status := "failed",
     createdAt := 7, updatedAt := 7 }]

/-- C8 witness: the listing guarantees instantiated on a concrete
three-record table with limit 2. -/
theorem C8_list_recent_witness :
    (list (some 2) dbC8).length ≤ 2 ∧
    List.Sorted newerFirst (list (some 2) dbC8) ∧
    (∀ a, a ∈ list (some 2) dbC8 → a ∈ dbC8) ∧
    (∀ a, a ∈ list (some 2) dbC8 →
      ∀ b, b ∈ (List.insertionSort newerFirst dbC8).drop 2 → b.createdAt ≤ a.createdAt) ∧
    list none dbC8 = list (some 24) dbC8 :=
  C8_list_recent 2 dbC8

/-- C9: the `update` mutation leaves every other record untouched, and on
the patched record it can change nothing but `status`, `imageUrls`,
`requestId`, `error` and `updatedAt`: `prompt`, `model`, `provider`,
`aspectRatio`, `resolution`, `outputFormat`, `numImages` and `createdAt`
survive every patch unchanged. -/
theorem C9_update_frame (db : List ImageRecord) (id : ℕ) (f : UpdateArgs) (r : ImageRecord)
    (h : db[id]? = some r) :
    (update db id f)[id]? = some (applyPatch r f) ∧
    (applyPatch r f).prompt = r.prompt ∧
    (applyPatch r f).model = r.model ∧
    (applyPatch r f).provider = r.provider ∧
    (applyPatch r f).aspectRatio = r.aspectRatio ∧
    (applyPatch r f).resolution = r.resolution ∧
    (applyPatch r f).outputFormat = r.outputFormat ∧
    (applyPatch r f).numImages = r.numImages ∧
    (applyPatch r f).createdAt = r.createdAt ∧
    (∀ j, j ≠ id → (update db id f)[j]? = db[j]?) := by
  refine ⟨?_, rfl, rfl, rfl, rfl, rfl, rfl, rfl, rfl, ?_⟩
  · rw [update_getElem db id f id, if_pos rfl, h]
    rfl
  · intro j hj
    rw [update_getElem db id f j, if_neg hj]

def updC9 : UpdateArgs :=
  { status := some "complete", imageUrls := some ["u"], updatedAt := 11 }

def recC9 : ImageRecord :=
  { prompt := "b", model := "m", provider := "huggingface", aspectRatio := "16:9",
    resolution := "1K", outputFormat := "png", numImages := 2, status := "queued",
    createdAt := 9, updatedAt := 9 }

def dbC9 : List ImageRecord :=
  [{ prompt := "a", model := "m", provider := "fal", aspectRatio := "1:1",
     resolution := "2K", outputFormat := "jpeg", numImages := 1, status := "complete",
     createdAt := 5, updatedAt := 5 }, recC9]

/-- C9 witness: the frame property instantiated on a concrete table. -/
theorem C9_update_frame_witness :
    dbC9[1]? = some recC9 ∧
    ((update dbC9 1 updC9)[1]? = some (applyPatch recC9 updC9) ∧
     (applyPatch recC9 updC9).prompt = recC9.prompt ∧
     (applyPatch recC9 updC9).model = recC9.model ∧
     (applyPatch recC9 updC9).provider = recC9.provider ∧
     (applyPatch recC9 updC9).aspectRatio = recC9.aspectRatio ∧
     (applyPatch recC9 updC9).resolution = recC9.resolution ∧
     (applyPatch recC9 updC9).outputFormat = recC9.outputFormat ∧
     (applyPatch recC9 updC9).numImages = recC9.numImages ∧
     (applyPatch recC9 updC9).createdAt = recC9.createdAt ∧
     (∀ j, j ≠ 1 → (update dbC9 1 updC9)[j]? = dbC9[j]?)) :=
  ⟨rfl, C9_update_frame dbC9 1 updC9 recC9 rfl⟩

def argsC1 : GenArgs :=
  { prompt := "p", aspectRatio := "1:1", resolution := "1K", outputFormat := "png" }

def envC1 : Env :=
  { hfToken := none
    falKey := some "k"
    t0 := 0
    t1 := 1
    hfStep := fun _ => Except.ok none
    falOutcome := Except.ok { images := some [], requestId := none } }

def recC1 : ImageRecord :=
  { prompt := "p", model := "fal-ai/nano-banana-pro", provider := "fal",
    aspectRatio := "1:1", resolution := "1K", outputFormat := "png", numImages := 1,
    status := "complete", createdAt := 0, updatedAt := 1, imageUrls := some [],
    requestId := none, error := none }

/-- C1 counterexample: on the fal path the code never checks the url list
for emptiness, so a fal response with an empty image list yields a record
whose status is `complete` while `imageUrls` is the empty list — the
claimed non-emptiness fails on the fal path. -/
theorem C1_counterexample :
    (generate argsC1 envC1 []).db = [recC1] ∧
    recC1.status = "complete" ∧ recC1.imageUrls = some [] := by
  exact ⟨by decide, rfl, rfl⟩

/-- C1 (amended): for every record produced by a generate call,
`imageUrls` is set if and only if the final status is `complete`; on the
huggingface path a `complete` record moreover has a non-empty url list,
but on the fal path the list may be empty when the provider returns no
usable url. -/
theorem C1_urls_iff_complete (args : GenArgs) (env : Env) (db : List ImageRecord) :
    ∃ rec, (generate args env db).db = db ++ [rec] ∧
      (rec.status = "complete" ↔ (rec.imageUrls).isSome = true) ∧
      (normalizeProvider args.provider = "huggingface" → rec.status = "complete" →
        ∃ urls, rec.imageUrls = some urls ∧ urls ≠ []) := by
  obtain ⟨rec, hdb, -, -, -, -, -, -, -, -, -, hcase⟩ := generate_master args env db
  refine ⟨rec, hdb, ?_, ?_⟩
  · cases hcase with
    | inl h =>
      obtain ⟨e, -, hst, -, hurls, -⟩ := h
      rw [hst, hurls]
      simp
    | inr h =>
      obtain ⟨urls, rid, -, hst, hurls, -, -, -⟩ := h
      rw [hst, hurls]
      simp
  · intro hp hst
    cases hcase with
    | inl h =>
      obtain ⟨e, -, hst2, -, -, -⟩ := h
      rw [hst2] at hst
      exact absurd hst (by decide)
    | inr h =>
      obtain ⟨urls, rid, -, -, hurls, -, -, hne⟩ := h
      exact ⟨urls, hurls, (hne hp).1⟩

def argsC1w : GenArgs :=
  { prompt := "p", aspectRatio := "1:1", resolution := "1K", outputFormat := "png",
    provider := some "huggingface" }

def envC1w : Env :=
  { hfToken := some "t"
    falKey := none
    t0 := 0
    t1 := 1
    hfStep := fun _ => Except.ok (some "u")
    falOutcome := Except.ok { images := none, requestId := none } }

/-- C1 witness: the amended invariant instantiated on a concrete
huggingface run. -/
theorem C1_urls_iff_complete_witness :
    ∃ rec, (generate argsC1w envC1w []).db = [] ++ [rec] ∧
      (rec.status = "complete" ↔ (rec.imageUrls).isSome = true) ∧
      (normalizeProvider argsC1w.provider = "huggingface" → rec.status = "complete" →
        ∃ urls, rec.imageUrls = some urls ∧ urls ≠ []) :=
  C1_urls_iff_complete argsC1w envC1w []

def argsC2 : GenArgs :=
  { prompt := "p", aspectRatio := "1:1", resolution := "1K", outputFormat := "png",
    provider := some "unknown" }

/-- C2 counterexample: the provider argument of `generate` is declared
with the two-literal union validator, so the value "unknown" is rejected
by Convex argument validation and the request fails before the handler
and its fallback ever run — even though `normalizeProvider` itself would
map "unknown" to "fal". -/
theorem C2_counterexample :
    generateArgsValid argsC2 = false ∧ normalizeProvider argsC2.provider = "fal" :=
  ⟨by decide, rfl⟩

/-- C2 (amended): an absent provider silently resolves to the default
`fal`, and the fallback function `normalizeProvider` maps every string
other than "huggingface" to "fal"; however the argument validator of
`generate` admits only "fal" and "huggingface" as explicit provider
values, so an unrecognized provider string is rejected by validation (the
request fails) rather than reaching the silent fallback. -/
theorem C2_provider_fallback :
    normalizeProvider none = "fal" ∧
    (∀ s : String, s ≠ "huggingface" → normalizeProvider (some s) = "fal") ∧
    (∀ a : GenArgs, ∀ s : String, a.provider = some s → generateArgsValid a = true →
      s = "fal" ∨ s = "huggingface") := by
  refine ⟨rfl, ?_, ?_⟩
  · intro s hs
    simp [normalizeProvider, hs]
  · intro a s hp hv
    simp [generateArgsValid, providerValidatorAccepts, hp] at hv
    tauto

/-- C2 witness: the fallback evaluated at the concrete string "unknown"
and at an absent provider. -/
theorem C2_provider_fallback_witness :
    (("unknown" : String) ≠ "huggingface") ∧
    normalizeProvider (some "unknown") = "fal" ∧ normalizeProvider none = "fal" :=
  ⟨by decide, C2_provider_fallback.2.1 "unknown" (by decide), C2_provider_fallback.1⟩

/-- C3: the huggingface dimension resolution agrees everywhere with the
spec rule (derive the ratio pair, falling back to 1:1 for strings outside
the table; scale the larger component to the base size 1024; round both
dimensions to the nearest multiple of 64 with a floor of 64), and on the
named ratios yields 1024 by 576, 576 by 1024, and 1024 by 1024. -/
theorem C3_dimensions :
    (∀ r : String, resolveHuggingFaceDimensions r = specHuggingFaceDimensions r) ∧
    (∀ r : String, ASPECT_RATIO_MAP r = none →
      resolveHuggingFaceDimensions r = resolveHuggingFaceDimensions "1:1") ∧
    resolveHuggingFaceDimensions "16:9" = { width := 1024, height := 576 } ∧
    resolveHuggingFaceDimensions "9:16" = { width := 576, height := 1024 } ∧
    resolveHuggingFaceDimensions "1:1" = { width := 1024, height := 1024 } := by
  refine ⟨resolveHuggingFaceDimensions_eq_spec, ?_, ?_, ?_, ?_⟩
  · intro r hr
    unfold resolveHuggingFaceDimensions
    rw [hr]
    rfl
  all_goals
    simp only [resolveHuggingFaceDimensions, ASPECT_RATIO_MAP, HUGGINGFACE_BASE_SIZE,
      roundToMultiple, jsRound]
    norm_num [Dims.mk.injEq]

/-- C3 witness: the agreement and the fallback evaluated at the concrete
unsupported ratio string "7:5" and at "16:9". -/
theorem C3_dimensions_witness :
    ASPECT_RATIO_MAP "7:5" = none ∧
    resolveHuggingFaceDimensions "7:5" = resolveHuggingFaceDimensions "1:1" ∧
    resolveHuggingFaceDimensions "16:9" = specHuggingFaceDimensions "16:9" :=
  ⟨rfl, C3_dimensions.2.1 "7:5" rfl, C3_dimensions.1 "16:9"⟩

/-- The environment only throws errors whose rendered message is
non-empty; a thrown non-Error value is always rendered as the non-empty
fallback text, so only Error instances with empty `.message` are
excluded. -/
def envMessagesOk (env : Env) : Prop :=
  (∀ i e, env.hfStep i = Except.error e → errorText e ≠ "") ∧
  (∀ e, env.falOutcome = Except.error e → errorText e ≠ "")

/-- C4: whenever generate fails after creating the queued record — the
failure is observable as the re-thrown error in the result — the record
is persisted in the final table patched to status `failed`, its error
field carries the human-readable message of that same error, and
updatedAt is refreshed to the patch-time clock reading; the message is
non-empty, given that the environment only throws errors rendering to a
non-empty message (the three internally raised errors have fixed
non-empty messages). -/
theorem C4_failure_reconciliation (args : GenArgs) (env : Env) (db : List ImageRecord)
    (e : JsError)
    (hres : (generate args env db).result = GenResult.err e)
    (henv : envMessagesOk env) :
    ∃ rec, (generate args env db).db = db ++ [rec] ∧
      rec.status = "failed" ∧
      rec.error = some (errorText e) ∧
      errorText e ≠ "" ∧
      rec.updatedAt = env.t1 := by
  obtain ⟨rec, hdb, -, -, -, -, -, -, -, -, hupd, hcase⟩ := generate_master args env db
  cases hcase with
  | inl h =>
    obtain ⟨e2, hres2, hst, herr, -, -⟩ := h
    rw [hres2] at hres
    injection hres with he
    subst he
    refine ⟨rec, hdb, hst, herr, ?_, hupd⟩
    rcases generate_err_source args env db e2 hres2 with h1 | h1 | h1 | ⟨j, hj⟩ | h1
    · subst h1; decide
    · subst h1; decide
    · subst h1; decide
    · exact henv.1 j e2 hj
    · exact henv.2 e2 h1
  | inr h =>
    obtain ⟨urls, rid, hres2, -⟩ := h
    rw [hres2] at hres
    cases hres

def argsC4 : GenArgs :=
  { prompt := "p", aspectRatio := "1:1", resolution := "1K", outputFormat := "png",
    provider := some "huggingface" }

def envC4 : Env :=
  { hfToken := none
    falKey := none
    t0 := 3
    t1 := 7
    hfStep := fun _ => Except.ok none
    falOutcome := Except.ok { images := none, requestId := none } }

/-- C4 witness: a concrete run with a missing huggingface token fails,
and the reconciliation guarantees hold for it. -/
theorem C4_failure_reconciliation_witness :
    (generate argsC4 envC4 []).result =
      GenResult.err { message := some "Missing HF_TOKEN environment variable." } ∧
    ∃ rec, (generate argsC4 envC4 []).db = [] ++ [rec] ∧
      rec.status = "failed" ∧
      rec.error = some (errorText { message := some "Missing HF_TOKEN environment variable." }) ∧
      errorText { message := some "Missing HF_TOKEN environment variable." } ≠ "" ∧
      rec.updatedAt = envC4.t1 :=
  have hres : (generate argsC4 envC4 []).result =
      GenResult.err { message := some "Missing HF_TOKEN environment variable." } := by decide
  have henv : envMessagesOk envC4 :=
    ⟨(fun _ e h => nomatch h), (fun e h => nomatch h)⟩
  ⟨hres, C4_failure_reconciliation argsC4 envC4 [] _ hres henv⟩

/-- Number of per-image provider calls a run requests: the clamped image
count, as a loop bound. -/
def requestedCount (args : GenArgs) : ℕ :=
  loopCount (clampNumImages ((args.numImages).getD 1))

/-- C5: on the huggingface path, when no per-image step throws, every
step that yields no url is dropped and the run completes with exactly the
yielded urls in call order — unless the aggregate list ends up empty, in
which case the whole run is treated as failed with the no-images error. -/
theorem C5_hf_drop_or_fail (args : GenArgs) (env : Env) (db : List ImageRecord)
    (us : ℕ → Option String)
    (hp : normalizeProvider args.provider = "huggingface")
    (htok : falsyCred env.hfToken = false)
    (hok : ∀ j, j < requestedCount args → env.hfStep j = Except.ok (us j)) :
    (((List.range (requestedCount args)).map us).filterMap id ≠ [] →
      (generate args env db).result =
        GenResult.ok db.length (((List.range (requestedCount args)).map us).filterMap id) none ∧
      ∃ rec, (generate args env db).db = db ++ [rec] ∧
        rec.status = "complete" ∧
        rec.imageUrls = some (((List.range (requestedCount args)).map us).filterMap id)) ∧
    (((List.range (requestedCount args)).map us).filterMap id = [] →
      (generate args env db).result =
        GenResult.err { message := some "Hugging Face returned no images." } ∧
      ∃ rec, (generate args env db).db = db ++ [rec] ∧
        rec.status = "failed" ∧
        rec.error = some "Hugging Face returned no images.") := by
  simp only [requestedCount] at hok ⊢
  have hl : hfLoop env.hfStep 0 (loopCount (clampNumImages ((args.numImages).getD 1))) =
      Except.ok (((List.range (loopCount (clampNumImages ((args.numImages).getD 1)))).map
        us).filterMap id) := by
    have h0 := hfLoop_all_ok env.hfStep us
      (loopCount (clampNumImages ((args.numImages).getD 1))) 0
      (fun j hj => by rw [Nat.zero_add]; exact hok j hj)
    simpa [Nat.zero_add] using h0
  constructor
  · intro hne
    rw [generate_hf_done args env db _ hp htok hl hne]
    exact ⟨rfl, _, rfl, rfl, rfl⟩
  · intro hemp
    rw [hemp] at hl
    rw [generate_hf_noImages args env db hp htok hl]
    exact ⟨rfl, _, rfl, rfl, rfl⟩

def usC5 : ℕ → Option String :=
  fun j => if j = 0 then some "u0" else if j = 3 then some "u3" else none

def argsC5 : GenArgs :=
  { prompt := "p", aspectRatio := "1:1", resolution := "1K", outputFormat := "png",
    numImages := some 4, provider := some "huggingface" }

def envC5 : Env :=
  { hfToken := some "t"
    falKey := none
    t0 := 0
    t1 := 1
    hfStep := fun j => Except.ok (usC5 j)
    falOutcome := Except.ok { images := none, requestId := none } }

/-- C5 witness: four per-image calls of which the second and third yield
no url complete the run with the first and fourth urls, in call order. -/
theorem C5_hf_drop_or_fail_witness :
    normalizeProvider argsC5.provider = "huggingface" ∧
    falsyCred envC5.hfToken = false ∧
    ((List.range (requestedCount argsC5)).map usC5).filterMap id = ["u0", "u3"] ∧
    (generate argsC5 envC5 []).result = GenResult.ok 0 ["u0", "u3"] none := by
  have hurls : ((List.range (requestedCount argsC5)).map usC5).filterMap id = ["u0", "u3"] := by
    decide
  have h := (C5_hf_drop_or_fail argsC5 envC5 [] usC5 rfl rfl (fun j hj => rfl)).1
    (by rw [hurls]; decide)
  rw [hurls] at h
  exact ⟨rfl, rfl, hurls, h.1⟩

/-- C6: on the huggingface path the caller-supplied resolution and output
format are ignored — the persisted record always carries resolution `1K`
and output format `png`. -/
theorem C6_hf_overrides (args : GenArgs) (env : Env) (db : List ImageRecord)
    (hp : normalizeProvider args.provider = "huggingface") :
    ∃ rec, (generate args env db).db = db ++ [rec] ∧
      rec.resolution = "1K" ∧ rec.outputFormat = "png" := by
  obtain ⟨rec, hdb, -, -, -, -, hres, hout, -, -, -, -⟩ := generate_master args env db
  exact ⟨rec, hdb, by rw [hres, if_pos hp], by rw [hout, if_pos hp]⟩

def argsC6 : GenArgs :=
  { prompt := "p", aspectRatio := "1:1", resolution := "4K", outputFormat := "webp",
    provider := some "huggingface" }

def envC6 : Env :=
  { hfToken := some "t"
    falKey := none
    t0 := 0
    t1 := 1
    hfStep := fun _ => Except.ok (some "u")
    falOutcome := Except.ok { images := none, requestId := none } }

/-- C6 witness: requested resolution 4K and output format webp are stored
as 1K and png. -/
theorem C6_hf_overrides_witness :
    argsC6.resolution = "4K" ∧ argsC6.outputFormat = "webp" ∧
    ∃ rec, (generate argsC6 envC6 []).db = [] ++ [rec] ∧
      rec.resolution = "1K" ∧ rec.outputFormat = "png" :=
  ⟨rfl, rfl, C6_hf_overrides argsC6 envC6 [] rfl⟩

/-- The batched fal call, when issued, carries the clamped image count. -/
theorem generate_falCall_num (args : GenArgs) (env : Env) (db : List ImageRecord)
    (call : FalInput) (h : (generate args env db).falCall = some call) :
    call.num_images = clampNumImages ((args.numImages).getD 1) := by
  by_cases hp : normalizeProvider args.provider = "huggingface"
  · cases htok : falsyCred env.hfToken with
    | true => rw [generate_hf_noToken args env db hp htok] at h; cases h
    | false =>
      cases hl : hfLoop env.hfStep 0 (loopCount (clampNumImages ((args.numImages).getD 1))) with
      | error e => rw [generate_hf_stepError args env db e hp htok hl] at h; cases h
      | ok urls =>
        by_cases hurls : urls = []
        · subst hurls
          rw [generate_hf_noImages args env db hp htok hl] at h
          cases h
        · rw [generate_hf_done args env db urls hp htok hl hurls] at h
          cases h
  · cases hkey : falsyCred env.falKey with
    | true => rw [generate_fal_noKey args env db hp hkey] at h; cases h
    | false =>
      cases hf : env.falOutcome with
      | error e =>
        rw [generate_fal_error args env db e hp hkey hf] at h
        injection h with h2
        rw [← h2]
      | ok res =>
        rw [generate_fal_done args env db res hp hkey hf] at h
        injection h with h2
        rw [← h2]

/-- C7: the image count is clamped into the interval from 1 to 4 — 0
becomes 1, 7 becomes 4, 3 stays 3, an absent count defaults to 1 — the
clamp happens before persistence (the stored record carries the clamped
value, always between 1 and 4) and before any provider call (the batched
fal call carries the clamped value). -/
theorem C7_clamp (args : GenArgs) (env : Env) (db : List ImageRecord) :
    clampNumImages 0 = 1 ∧ clampNumImages 7 = 4 ∧ clampNumImages 3 = 3 ∧
    clampNumImages ((none : Option ℚ).getD 1) = 1 ∧
    (∀ x : ℚ, 1 ≤ clampNumImages x ∧ clampNumImages x ≤ 4) ∧
    (∃ rec, (generate args env db).db = db ++ [rec] ∧
      rec.numImages = clampNumImages ((args.numImages).getD 1) ∧
      1 ≤ rec.numImages ∧ rec.numImages ≤ 4) ∧
    (∀ call, (generate args env db).falCall = some call →
      call.num_images = clampNumImages ((args.numImages).getD 1)) := by
  have hbounds : ∀ x : ℚ, 1 ≤ clampNumImages x ∧ clampNumImages x ≤ 4 := fun x =>
    ⟨le_min (by norm_num) (le_max_left 1 x), min_le_left 4 (max 1 x)⟩
  have h0 : clampNumImages 0 = 1 := by
    unfold clampNumImages
    rw [max_eq_left (by norm_num : (0 : ℚ) ≤ 1), min_eq_right (by norm_num : (1 : ℚ) ≤ 4)]
  have h7 : clampNumImages 7 = 4 := by
    unfold clampNumImages
    rw [max_eq_right (by norm_num : (1 : ℚ) ≤ 7), min_eq_left (by norm_num : (4 : ℚ) ≤ 7)]
  have h3 : clampNumImages 3 = 3 := by
    unfold clampNumImages
    rw [max_eq_right (by norm_num : (1 : ℚ) ≤ 3), min_eq_right (by norm_num : (3 : ℚ) ≤ 4)]
  have h1 : clampNumImages ((none : Option ℚ).getD 1) = 1 := by
    unfold clampNumImages
    rw [Option.getD_none, max_eq_left (le_refl 1), min_eq_right (by norm_num : (1 : ℚ) ≤ 4)]
  obtain ⟨rec, hdb, -, -, -, -, -, -, hnum, -, -, -⟩ := generate_master args env db
  refine ⟨h0, h7, h3, h1, hbounds, ⟨rec, hdb, hnum, ?_, ?_⟩, ?_⟩
  · rw [hnum]; exact (hbounds _).1
  · rw [hnum]; exact (hbounds _).2
  · intro call hc
    exact generate_falCall_num args env db call hc

def argsC7 : GenArgs :=
  { prompt := "p", aspectRatio := "1:1", resolution := "1K", outputFormat := "png",
    numImages := some 7 }

def envC7 : Env :=
  { hfToken := none
    falKey := some "k"
    t0 := 0
    t1 := 1
    hfStep := fun _ => Except.ok none
    falOutcome := Except.ok { images := some [some "u"], requestId := some "r" } }

/-- C7 witness: the clamp instantiated — a request for 7 images persists
a record whose image count is the clamped value, inside the bounds. -/
theorem C7_clamp_witness :
    clampNumImages 7 = 4 ∧
    ∃ rec, (generate argsC7 envC7 []).db = [] ++ [rec] ∧
      rec.numImages = clampNumImages ((argsC7.numImages).getD 1) ∧
      1 ≤ rec.numImages ∧ rec.numImages ≤ 4 :=
  have h := C7_clamp argsC7 envC7 []
  ⟨h.2.1, h.2.2.2.2.2.1⟩

/-- C10: the clamp is total on the rationals and is the identity on the
whole interval from 1 to 4 without enforcing integrality; in particular a
fractional requested count of five halves is clamped to itself and
persisted verbatim in the record. -/
theorem C10_fractional (args : GenArgs) (env : Env) (db : List ImageRecord) :
    (∀ x : ℚ, 1 ≤ x → x ≤ 4 → clampNumImages x = x) ∧
    clampNumImages (5 / 2) = 5 / 2 ∧
    (args.numImages = some (5 / 2) →
      ∃ rec, (generate args env db).db = db ++ [rec] ∧ rec.numImages = 5 / 2) := by
  have hid : ∀ x : ℚ, 1 ≤ x → x ≤ 4 → clampNumImages x = x := by
    intro x hx1 hx4
    unfold clampNumImages
    rw [max_eq_right hx1, min_eq_right hx4]
  refine ⟨hid, hid (5 / 2) (by norm_num) (by norm_num), ?_⟩
  intro hni
  obtain ⟨rec, hdb, -, -, -, -, -, -, hnum, -, -, -⟩ := generate_master args env db
  refine ⟨rec, hdb, ?_⟩
  rw [hnum, hni]
  exact hid (5 / 2) (by norm_num) (by norm_num)

def argsC10 : GenArgs :=
  { prompt := "p", aspectRatio := "1:1", resolution := "1K", outputFormat := "png",
    numImages := some (5 / 2) }

def envC10 : Env :=
  { hfToken := none
    falKey := some "k"
    t0 := 0
    t1 := 1
    hfStep := fun _ => Except.ok none
    falOutcome := Except.ok { images := some [some "u"], requestId := some "r" } }

/-- C10 witness: the fractional count five halves lies in the interval
and is persisted verbatim on a concrete run. -/
theorem C10_fractional_witness :
    (1 : ℚ) ≤ 5 / 2 ∧ (5 : ℚ) / 2 ≤ 4 ∧ argsC10.numImages = some (5 / 2) ∧
    ∃ rec, (generate argsC10 envC10 []).db = [] ++ [rec] ∧ rec.numImages = 5 / 2 :=
  ⟨by norm_num, by norm_num, rfl, (C10_fractional argsC10 envC10 []).2.2 rfl⟩

end Imagegen
